import Mathlib

/-!
Shallow embedding of `main.py` (a single-file TikTok video downloader) and
proofs of its specified properties.

Modelling conventions:
  * The execution environment (executable search path, file existence) is an
    explicit `Env` record of boolean oracles; `shutil.which`/`os.path.exists`
    become lookups in it.
  * The external extraction engine (`yt_dlp.YoutubeDL.extract_info`) is a
    black box; one run's behaviour is an `EngineResult` parameter: normal
    return of an info dict, a raised `yt_dlp.utils.DownloadError`, or a raised
    exception of any other type.
  * Printing is modelled by recording the emitted strings; `print(x)` emits
    `x ++ "\n"`, `print(x, end="")` emits `x` with no trailing newline.
  * Filesystem effects are recorded in result structures (`madeDir`,
    `dirsCreated`); `sys.exit(1)` becomes the `MainOutcome.exited 1` value.
  * Python string helpers (`strip`, `startswith`, `os.path` functions) are
    re-implemented structurally on `List Char` so that they evaluate by
    kernel reduction.
-/

/-- ASCII whitespace stripped by Python `str.strip()`. -/
def pyWhitespace (c : Char) : Bool :=
  c = ' ' || c = '\t' || c = '\n' || c = '\r' || c = '\x0b' || c = '\x0c'

/-- Python `s.strip()`: remove leading and trailing whitespace. -/
def pyStrip (s : String) : String :=
  String.mk (((s.data.dropWhile pyWhitespace).reverse.dropWhile pyWhitespace).reverse)

/-- Python `s.startswith(p)`. -/
def pyStartsWith (s p : String) : Bool :=
  p.data.isPrefixOf s.data

/-- Split a character list at each `'/'` separator (helper for `formatTiers`). -/
def splitSlash : List Char → List (List Char)
  | [] => [[]]
  | c :: rest =>
    match splitSlash rest with
    | [] => [[c]]
    | g :: gs => if c = '/' then [] :: g :: gs else (c :: g) :: gs

/-- View of a yt-dlp format-selector string as its ordered fallback chain:
the selector tiers separated by `'/'`, tried left to right. -/
def formatTiers (s : String) : List String :=
  (splitSlash s.data).map String.mk

/-- POSIX `os.path.join` for two components. -/
def pathJoin (a b : String) : String :=
  if pyStartsWith b "/" then b
  else if a = "" then b
  else if a.data.getLast? = some '/' then a ++ b
  else a ++ "/" ++ b

/-- `os.path.abspath`, modelled without path normalisation: a relative path is
resolved against the current working directory `cwd`. -/
def abspath (cwd p : String) : String :=
  if pyStartsWith p "/" then p else pathJoin cwd p

/-- `os.path.basename`: the part of the path after the last `'/'`. -/
def basename (s : String) : String :=
  String.mk (s.data.foldl (fun acc c => if c = '/' then [] else acc ++ [c]) [])

/-- Execution environment seen by the capability probe: whether
`shutil.which` resolves a command name, and whether a path exists on disk. -/
structure Env where
  whichResolves : String → Bool
  pathExists : String → Bool

/-- `has_ffmpeg` (main.py lines 44-54): true if ffmpeg is on the PATH or at
one of two fixed Windows install locations. Pure and total: absence yields
`false`, never an error. -/
def has_ffmpeg (env : Env) : Bool :=
  if env.whichResolves "ffmpeg" then true
  else if env.pathExists "C:\\ffmpeg\\bin\\ffmpeg.exe" then true
  else if env.pathExists "C:\\Program Files\\ffmpeg\\bin\\ffmpeg.exe" then true
  else false

/-- The fixed fallback install locations probed by `has_ffmpeg` after the
PATH lookup. -/
def ffmpegFallbackPaths : List String :=
  ["C:\\ffmpeg\\bin\\ffmpeg.exe", "C:\\Program Files\\ffmpeg\\bin\\ffmpeg.exe"]

/-- The spec's CapabilityState: result of the capability probe. -/
structure CapabilityState where
  remuxAvailable : Bool

/-- One yt-dlp post-processor entry, e.g.
`"key": "FFmpegVideoConvertor", "preferedformat": "mp4"`. -/
structure PostProcessor where
  key : String
  preferedformat : String
deriving DecidableEq, Repr

/-- The spec's FormatPolicy: the format-selector expression (a `'/'`-separated
fallback chain, kept as the source string) plus the post-processor list. -/
structure FormatPolicy where
  fmt : String
  postprocessors : List PostProcessor
deriving DecidableEq, Repr

/-- The format policy chosen in `download_tiktok` (main.py lines 86-98),
conditioned on the capability probe. -/
def buildPolicy (c : CapabilityState) : FormatPolicy :=
  if c.remuxAvailable then
    { fmt :=
        "bestvideo[ext=mp4]+bestaudio[ext=m4a]/" ++
        "bestvideo[ext=mp4]+bestaudio/" ++
        "bestvideo+bestaudio/best"
      postprocessors := [{ key := "FFmpegVideoConvertor", preferedformat := "mp4" }] }
  else
    { fmt := "best[ext=mp4]/best"
      postprocessors := [] }

/-- The fixed anti-bot request headers (main.py lines 111-119). -/
structure HttpHeaders where
  userAgent : String
  referer : String
  acceptLanguage : String
deriving DecidableEq, Repr

/-- The header values set in `opts["http_headers"]`. -/
def tiktokHeaders : HttpHeaders :=
  { userAgent :=
      "Mozilla/5.0 (Windows NT 10.0; Win64; x64) " ++
      "AppleWebKit/537.36 (KHTML, like Gecko) " ++
      "Chrome/124.0.0.0 Safari/537.36"
    referer := "https://www.tiktok.com/"
    acceptLanguage := "en-US,en;q=0.9" }

/-- The yt-dlp options dict assembled by `download_tiktok` (main.py
lines 100-135). `impersonate` and `postprocessors` are `Option`s because the
corresponding keys are only present in the dict under a condition. -/
structure YdlOpts where
  outtmpl : String
  format : String
  mergeOutputFormat : String
  nooverwrites : Bool
  httpHeaders : HttpHeaders
  impersonate : Option (String × String)
  postprocessors : Option (List PostProcessor)
deriving DecidableEq, Repr

/-- The part of the engine's resolved info dict this program consumes:
`info.get("uploader", "unknown")`. -/
structure InfoDict where
  uploader : Option String
deriving DecidableEq, Repr

/-- Behaviour of one `ydl.extract_info(url, download=True)` call: a normal
return (whose info dict may be `None`/empty), a raised
`yt_dlp.utils.DownloadError`, or a raised exception of any other type. -/
inductive EngineResult where
  | ok (info : Option InfoDict)
  | downloadError (msg : String)
  | otherError (msg : String)
deriving DecidableEq, Repr

/-- How a Python call ends: a normal return of a boolean, or an uncaught
exception propagating to the caller. -/
inductive PyResult where
  | ret (b : Bool)
  | raised (msg : String)
deriving DecidableEq, Repr

/-- `info.get("uploader", "unknown") if info else "unknown"`
(main.py line 140). -/
def uploaderOf (info : Option InfoDict) : String :=
  match info with
  | some i => i.uploader.getD "unknown"
  | none => "unknown"

/-- Lines printed by `_print_tips` (main.py lines 154-161): a header followed
by the fixed advisory list. -/
def advisoryTips : List String :=
  ["  1. Make sure the video is public.",
   "  2. Update yt-dlp          →  pip install -U yt-dlp",
   "  3. Install curl_cffi      →  pip install curl_cffi",
   "  4. Install ffmpeg for mp4 →  https://ffmpeg.org/download.html",
   "  5. Try with browser cookies (uncomment \x27cookiesfrombrowser\x27 in the script).",
   "  6. Some regions require a VPN.\n"]

/-- Full output of `_print_tips`: the header line then the six tips. -/
def _print_tips : List String :=
  "\n💡  Troubleshooting tips:" :: advisoryTips

/-- One observed run of `download_tiktok`: the directory passed to
`os.makedirs`, the options dict handed to the engine, the advisory lines
printed on failure, the reported save location, and how the call ended. -/
structure DownloadRun where
  madeDir : String
  opts : YdlOpts
  advisory : List String
  savedTo : Option String
  failureMessage : Option String
  result : PyResult
deriving DecidableEq, Repr

/-- `download_tiktok(url, output_dir)` (main.py lines 73-148).
`impersonateAvailable` models whether the `ImpersonateTarget` import succeeds
(the `try`/`except` of lines 127-132 becomes this conditional); `engine` is
the black-box engine's behaviour; `cwd` resolves `os.path.abspath`. Only
`yt_dlp.utils.DownloadError` is caught (returning `False` after printing the
tips); any other engine exception propagates as `PyResult.raised`. -/
def download_tiktok (env : Env) (impersonateAvailable : Bool) (engine : EngineResult)
    (cwd url output_dir : String) : DownloadRun :=
  let ffmpeg_ok := has_ffmpeg env
  let policy := buildPolicy { remuxAvailable := ffmpeg_ok }
  let opts : YdlOpts :=
    { outtmpl := pathJoin (pathJoin output_dir "%(uploader)s") "%(title)s.%(ext)s"
      format := policy.fmt
      mergeOutputFormat := "mp4"
      nooverwrites := true
      httpHeaders := tiktokHeaders
      impersonate := if impersonateAvailable then some ("chrome", "124") else none
      postprocessors :=
        if policy.postprocessors.isEmpty then none else some policy.postprocessors }
  match engine with
  | .ok info =>
    let uploader := uploaderOf info
    { madeDir := output_dir, opts := opts, advisory := [],
      savedTo := some (abspath cwd (pathJoin output_dir uploader)),
      failureMessage := none, result := .ret true }
  | .downloadError msg =>
    { madeDir := output_dir, opts := opts, advisory := _print_tips,
      savedTo := none, failureMessage := some msg, result := .ret false }
  | .otherError msg =>
    { madeDir := output_dir, opts := opts, advisory := [],
      savedTo := none, failureMessage := none, result := .raised msg }

/-- A progress event dict as consumed by `progress_hook`: the `status` value,
the three optional rendering fields (`d.get` with defaults), and `filename`
(read unconditionally in the `finished` branch). -/
structure HookDict where
  status : String
  percentStr : Option String
  speedStr : Option String
  etaStr : Option String
  filename : String
deriving DecidableEq, Repr

/-- `progress_hook(d)` (main.py lines 57-67), as its list of emitted strings.
The `downloading` line uses `end=""` so it carries no trailing newline; the
`finished` and `error` lines are normal prints; any other status emits
nothing. -/
def progress_hook (d : HookDict) : List String :=
  if d.status = "downloading" then
    let pct := pyStrip (d.percentStr.getD "?%")
    let speed := pyStrip (d.speedStr.getD "?")
    let eta := pyStrip (d.etaStr.getD "?")
    ["\r  ⬇  " ++ pct ++ "  |  speed: " ++ speed ++ "  |  ETA: " ++ eta ++ "   "]
  else if d.status = "finished" then
    ["\n  ✔  Download complete → " ++ basename d.filename ++ "\n"]
  else if d.status = "error" then
    ["\n  ❌  An error occurred during download." ++ "\n"]
  else []

/-- How a run of `main` ends: `sys.exit(code)`, normal fall-through
(implicit exit code 0) after attempting the download, or an uncaught
exception from the download. -/
inductive MainOutcome where
  | exited (code : Nat)
  | completed
  | crashed (msg : String)
deriving DecidableEq, Repr

/-- One observed run of `main`: its outcome, the directories created by
`os.makedirs` during it, and whether the engine was ever invoked. -/
structure MainRun where
  outcome : MainOutcome
  dirsCreated : List String
  transferAttempted : Bool
deriving DecidableEq, Repr

/-- The body of `main` after the URL has been read from argv or stdin
(main.py lines 180-189): strip, validate, then download into the default
`"tiktok_downloads"` directory, discarding `download_tiktok`'s boolean. -/
def mainWithUrl (rawUrl : String) (env : Env) (impersonateAvailable : Bool)
    (engine : EngineResult) (cwd : String) : MainRun :=
  let url := pyStrip rawUrl
  if url = "" then
    { outcome := .exited 1, dirsCreated := [], transferAttempted := false }
  else if pyStartsWith url "http" = false then
    { outcome := .exited 1, dirsCreated := [], transferAttempted := false }
  else
    let run := download_tiktok env impersonateAvailable engine cwd url "tiktok_downloads"
    { outcome :=
        match run.result with
        | .ret _ => .completed
        | .raised msg => .crashed msg
      dirsCreated := [run.madeDir]
      transferAttempted := true }

/-- `main()` (main.py lines 167-189): the URL comes from the first
command-line argument when present, else from one line of standard input. -/
def mainRun (argv : List String) (stdin : String) (env : Env)
    (impersonateAvailable : Bool) (engine : EngineResult) (cwd : String) : MainRun :=
  mainWithUrl (match argv with | a :: _ => a | [] => stdin)
    env impersonateAvailable engine cwd

/-- A concrete environment with nothing installed, used to instantiate
universally quantified theorems at a specific input. -/
def emptyEnv : Env :=
  { whichResolves := fun _ => false, pathExists := fun _ => false }

/-- A concrete environment where the PATH lookup resolves every name. -/
def pathEnv : Env :=
  { whichResolves := fun _ => true, pathExists := fun _ => false }

/-- C1: for every CapabilityState, if `remuxAvailable` is true `buildPolicy`
returns the ordered 4-tier fallback chain (mp4 video + m4a audio; mp4 video +
best audio; best video + best audio; best single stream) together with exactly
one post-processor entry converting to container "mp4"; if false, the 2-tier
chain (best pre-muxed mp4 single stream; best single stream) with an empty
post-processor list. -/
theorem buildPolicy_fallback_chain (c : CapabilityState) :
    (c.remuxAvailable = true →
      formatTiers (buildPolicy c).fmt =
        ["bestvideo[ext=mp4]+bestaudio[ext=m4a]", "bestvideo[ext=mp4]+bestaudio",
         "bestvideo+bestaudio", "best"] ∧
      (buildPolicy c).postprocessors = [⟨"FFmpegVideoConvertor", "mp4"⟩]) ∧
    (c.remuxAvailable = false →
      formatTiers (buildPolicy c).fmt = ["best[ext=mp4]", "best"] ∧
      (buildPolicy c).postprocessors = []) := by
  obtain ⟨b⟩ := c
  cases b
  · exact ⟨fun h => Bool.noConfusion h, fun _ => ⟨rfl, rfl⟩⟩
  · exact ⟨fun _ => ⟨rfl, rfl⟩, fun h => Bool.noConfusion h⟩

/-- Witness for C1 at the two concrete capability states. -/
theorem buildPolicy_fallback_chain_witness :
    (buildPolicy ⟨true⟩).postprocessors = [⟨"FFmpegVideoConvertor", "mp4"⟩] ∧
    (buildPolicy ⟨false⟩).postprocessors = [] :=
  ⟨((buildPolicy_fallback_chain ⟨true⟩).1 rfl).2,
   ((buildPolicy_fallback_chain ⟨false⟩).2 rfl).2⟩

/-- C2: a URL that is empty after stripping, or whose stripped form does not
begin with the HTTP(S) scheme prefix "http", makes `main` exit with code 1
before any transfer is attempted and before any directory is created — in
both input modes (command-line argument and interactive prompt). -/
theorem main_rejects_invalid_url (raw stdin : String) (env : Env) (imp : Bool)
    (engine : EngineResult) (cwd : String)
    (h : pyStrip raw = "" ∨ pyStartsWith (pyStrip raw) "http" = false) :
    mainRun [raw] stdin env imp engine cwd = ⟨.exited 1, [], false⟩ ∧
    mainRun [] raw env imp engine cwd = ⟨.exited 1, [], false⟩ := by
  rcases h with h | h
  · constructor <;> simp [mainRun, mainWithUrl, h]
  · constructor <;> (by_cases he : pyStrip raw = "" <;> simp [mainRun, mainWithUrl, he, h])

/-- Witness for C2: the concrete invalid URL "not-a-url". -/
theorem main_rejects_invalid_url_witness :
    mainRun ["not-a-url"] "" emptyEnv false (.downloadError "boom") "/home/user" =
      ⟨.exited 1, [], false⟩ :=
  (main_rejects_invalid_url "not-a-url" "" emptyEnv false (.downloadError "boom")
    "/home/user" (Or.inr (by decide))).1

/-- C3: when the engine raises its typed download-error, `download_tiktok`
returns `False` without propagating, records the engine's message, and prints
exactly the fixed advisory list of six tips (after its header line); an engine
failure of any other type propagates uncaught. -/
theorem download_error_caught_with_tips (env : Env) (imp : Bool)
    (cwd url dir msg : String) :
    (download_tiktok env imp (.downloadError msg) cwd url dir).result = .ret false ∧
    (download_tiktok env imp (.downloadError msg) cwd url dir).failureMessage = some msg ∧
    (download_tiktok env imp (.downloadError msg) cwd url dir).advisory = _print_tips ∧
    _print_tips = "\n💡  Troubleshooting tips:" :: advisoryTips ∧
    advisoryTips.length = 6 ∧
    (download_tiktok env imp (.otherError msg) cwd url dir).result = .raised msg ∧
    (download_tiktok env imp (.otherError msg) cwd url dir).advisory = [] :=
  ⟨rfl, rfl, rfl, rfl, rfl, rfl, rfl⟩

/-- C4: the options dict passed to the engine carries a post-processor list
exactly when ffmpeg was detected; any list it carries is non-empty; and a
non-empty `buildPolicy` post-processor list implies the remux-capable state. -/
theorem postprocessors_only_when_remux (env : Env) (imp : Bool) (engine : EngineResult)
    (cwd url dir : String) :
    ((download_tiktok env imp engine cwd url dir).opts.postprocessors.isSome ↔
      has_ffmpeg env = true) ∧
    (∀ l, (download_tiktok env imp engine cwd url dir).opts.postprocessors = some l →
      l ≠ []) ∧
    (∀ c : CapabilityState, (buildPolicy c).postprocessors ≠ [] →
      c.remuxAvailable = true) := by
  have hc : ∀ c : CapabilityState, (buildPolicy c).postprocessors ≠ [] →
      c.remuxAvailable = true := by
    rintro ⟨b⟩ h
    cases b
    · exact absurd rfl h
    · rfl
  refine ⟨?_, ?_, hc⟩ <;> cases engine <;> cases hf : has_ffmpeg env <;>
    simp [download_tiktok, buildPolicy, hf]

/-- Witness for C4: a remux-capable state and a concrete run with ffmpeg on
the PATH whose options carry the one-element post-processor list. -/
theorem postprocessors_only_when_remux_witness :
    (⟨true⟩ : CapabilityState).remuxAvailable = true ∧
    [(⟨"FFmpegVideoConvertor", "mp4"⟩ : PostProcessor)] ≠ [] :=
  ⟨(postprocessors_only_when_remux emptyEnv false (.ok none) "/home" "u" "d").2.2
      ⟨true⟩ (by decide),
   (postprocessors_only_when_remux pathEnv false (.ok none) "/home" "u" "d").2.1
      [⟨"FFmpegVideoConvertor", "mp4"⟩] rfl⟩

/-- C5: on engine success `download_tiktok` returns `True` and reports the
absolute path `outputDirectory/uploader` as the save location, where the
uploader comes from the resolved metadata and defaults to "unknown" when the
info result is empty or the uploader key is absent. -/
theorem download_success_reports_path (env : Env) (imp : Bool) (cwd url dir : String)
    (info : Option InfoDict) :
    (download_tiktok env imp (.ok info) cwd url dir).result = .ret true ∧
    (download_tiktok env imp (.ok info) cwd url dir).savedTo =
      some (abspath cwd (pathJoin dir (uploaderOf info))) ∧
    uploaderOf none = "unknown" ∧
    (∀ i : InfoDict, i.uploader = none → uploaderOf (some i) = "unknown") ∧
    (∀ u : String, uploaderOf (some ⟨some u⟩) = u) := by
  refine ⟨rfl, rfl, rfl, ?_, fun u => rfl⟩
  rintro ⟨u⟩ h
  subst h
  rfl

/-- Witness for C5: an info dict with no uploader key defaults to "unknown". -/
theorem download_success_reports_path_witness :
    uploaderOf (some ⟨none⟩) = "unknown" :=
  (download_success_reports_path emptyEnv false "/home" "u" "d" none).2.2.2.1 ⟨none⟩ rfl

/-- C6: `has_ffmpeg` returns true exactly when the PATH lookup resolves
"ffmpeg" or one of the two fixed fallback install locations exists; it is a
pure total boolean function, so absence yields `false`, never an error. -/
theorem has_ffmpeg_iff (env : Env) :
    (has_ffmpeg env = true ↔
      env.whichResolves "ffmpeg" = true ∨
      ∃ p ∈ ffmpegFallbackPaths, env.pathExists p = true) ∧
    ffmpegFallbackPaths.length = 2 := by
  constructor
  · cases h1 : env.whichResolves "ffmpeg" <;>
    cases h2 : env.pathExists "C:\\ffmpeg\\bin\\ffmpeg.exe" <;>
    cases h3 : env.pathExists "C:\\Program Files\\ffmpeg\\bin\\ffmpeg.exe" <;>
    simp [has_ffmpeg, ffmpegFallbackPaths, h1, h2, h3]
  · rfl

/-- C7: a downloading event renders one carriage-return-prefixed line
`percent | speed | ETA` with no trailing newline; a finished event emits a
newline then a completion line naming only the basename of the saved file; an
error event emits the error marker; any other status is a no-op. -/
theorem progress_hook_event_rendering (p s t : Option String) (fn st : String) :
    progress_hook ⟨"downloading", p, s, t, fn⟩ =
      ["\r  ⬇  " ++ pyStrip (p.getD "?%") ++ "  |  speed: " ++ pyStrip (s.getD "?") ++
        "  |  ETA: " ++ pyStrip (t.getD "?") ++ "   "] ∧
    progress_hook ⟨"finished", p, s, t, fn⟩ =
      ["\n  ✔  Download complete → " ++ basename fn ++ "\n"] ∧
    progress_hook ⟨"error", p, s, t, fn⟩ =
      ["\n  ❌  An error occurred during download." ++ "\n"] ∧
    (st ≠ "downloading" → st ≠ "finished" → st ≠ "error" →
      progress_hook ⟨st, p, s, t, fn⟩ = []) := by
  refine ⟨rfl, rfl, rfl, fun h1 h2 h3 => ?_⟩
  simp [progress_hook, h1, h2, h3]

/-- Witness for C7: the unknown status "paused" is ignored. -/
theorem progress_hook_event_rendering_witness :
    progress_hook ⟨"paused", none, none, none, "clip.mp4"⟩ = [] :=
  (progress_hook_event_rendering none none none "clip.mp4" "paused").2.2.2
    (by decide) (by decide) (by decide)

/-- C8: when enabling browser impersonation fails, the run carries no
impersonation profile and is otherwise byte-for-byte identical to the run
where enablement succeeds — in particular it ends the same way, so the failed
enablement never raises or aborts the operation. -/
theorem impersonation_failure_absorbed (env : Env) (engine : EngineResult)
    (cwd url dir : String) :
    (download_tiktok env false engine cwd url dir).opts.impersonate = none ∧
    (download_tiktok env true engine cwd url dir).opts.impersonate =
      some ("chrome", "124") ∧
    download_tiktok env false engine cwd url dir =
      { download_tiktok env true engine cwd url dir with
        opts := { (download_tiktok env true engine cwd url dir).opts with
                  impersonate := none } } := by
  cases engine <;> exact ⟨rfl, rfl, rfl⟩

/-- C9: once the URL passes validation, `main` completes normally (implicit
exit code 0) whether the engine succeeds or reports its typed download error:
the executor's boolean is discarded and failure gets no distinct exit code. -/
theorem main_valid_url_completes (raw stdin : String) (env : Env) (imp : Bool)
    (cwd : String) (info : Option InfoDict) (msg : String)
    (h1 : pyStrip raw ≠ "") (h2 : pyStartsWith (pyStrip raw) "http" = true) :
    mainRun [raw] stdin env imp (.ok info) cwd =
      ⟨.completed, ["tiktok_downloads"], true⟩ ∧
    mainRun [raw] stdin env imp (.downloadError msg) cwd =
      ⟨.completed, ["tiktok_downloads"], true⟩ := by
  constructor <;> simp [mainRun, mainWithUrl, h1, h2, download_tiktok]

/-- Witness for C9: a concrete valid URL completes normally under a reported
transfer failure. -/
theorem main_valid_url_completes_witness :
    mainRun ["https://www.tiktok.com/@user/video/123"] "" emptyEnv false
      (.downloadError "boom") "/home/user" = ⟨.completed, ["tiktok_downloads"], true⟩ :=
  (main_valid_url_completes "https://www.tiktok.com/@user/video/123" "" emptyEnv false
    "/home/user" none "boom" (by decide) (by decide)).2

/-- C10: a downloading event missing the percent, speed, or ETA field still
renders the well-formed status line, with "?%" substituted for a missing
percent and "?" for a missing speed or ETA. -/
theorem progress_hook_missing_fields_placeholders (p s t : Option String) (fn : String) :
    progress_hook ⟨"downloading", none, s, t, fn⟩ =
      ["\r  ⬇  ?%  |  speed: " ++ pyStrip (s.getD "?") ++ "  |  ETA: " ++
        pyStrip (t.getD "?") ++ "   "] ∧
    progress_hook ⟨"downloading", p, none, t, fn⟩ =
      ["\r  ⬇  " ++ pyStrip (p.getD "?%") ++ "  |  speed: " ++ "?" ++ "  |  ETA: " ++
        pyStrip (t.getD "?") ++ "   "] ∧
    progress_hook ⟨"downloading", p, s, none, fn⟩ =
      ["\r  ⬇  " ++ pyStrip (p.getD "?%") ++ "  |  speed: " ++ pyStrip (s.getD "?") ++
        "  |  ETA: " ++ "?" ++ "   "] ∧
    progress_hook ⟨"downloading", none, none, none, fn⟩ =
      ["\r  ⬇  ?%  |  speed: ?  |  ETA: ?   "] :=
  ⟨rfl, rfl, rfl, rfl⟩
